import Mathlib

/-!
Verification of the arch-mcp-server documentation indexing engine.

This file gives a shallow embedding of the classification, scanning and
query code of the repository (src/models.rs and src/server.rs) and proves
or refutes the specification claims about it.

Modeling conventions:
* Rust `String`/`&str` values are Lean `String`; the byte-level operations
  of the source (`split`, `trim`, `starts_with`, `ends_with`, `contains`,
  `strip_prefix`, `trim_end_matches`) are re-implemented over `String.data`
  (`List Char`) so that every definition is executable and kernel-reducible.
  UTF-8 byte order coincides with code-point order, so these are faithful.
* Rust `u32` values are `Nat` with an explicit `% 4294967296` at the
  arithmetic operations that can wrap in the source (release-profile
  wrapping semantics), and saturation `min _ 4294967295` where the source
  uses `try_into().unwrap_or(u32::MAX)`.
* `BTreeMap<DocumentKey, ResourceInfo>` is an association list ordered by
  key (`insertIndex` keeps it sorted and overwrites an existing key,
  mirroring `BTreeMap::insert`); `values()` iteration is the list itself.
* Filesystem state is passed in explicitly: a scan target resolves to a
  `ScanTarget` (missing / plain file / directory tree / other), and a
  directory is a `List FsEntry` in enumeration order.  Reading metadata
  never fails in the model (sizes are part of the tree).
* Rust panics (out-of-bounds slicing) are modeled by an explicit
  `ToolOutcome.panicked` result; fallible code returns `Except`/`Option`.
-/

/-- Whitespace test used by Rust `str::trim` (restricted to the ASCII
whitespace characters; the source's Unicode extras are never relevant to
the filter strings considered here). -/
def isRustWhitespace (c : Char) : Bool :=
  c == ' ' || c == '\t' || c == '\n' || c == '\r'

/-- Models Rust `str::trim`: removes leading and trailing whitespace. -/
def trimAscii (s : String) : String :=
  ⟨((s.data.dropWhile isRustWhitespace).reverse.dropWhile isRustWhitespace).reverse⟩

/-- Lowercases one ASCII letter, models `char::to_ascii_lowercase`. -/
def asciiLowerChar (c : Char) : Char :=
  if 'A' ≤ c ∧ c ≤ 'Z' then Char.ofNat (c.toNat + 32) else c

/-- Models Rust `str::to_ascii_lowercase` (and `to_lowercase` on the ASCII
extension names it is applied to). -/
def asciiLower (s : String) : String :=
  ⟨s.data.map asciiLowerChar⟩

/-- Helper for `splitOnChar`; `acc` holds the current piece reversed. -/
def splitOnCharAux (sep : Char) : List Char → List Char → List String
  | [], acc => [⟨acc.reverse⟩]
  | c :: cs, acc =>
      if c == sep then ⟨acc.reverse⟩ :: splitOnCharAux sep cs []
      else splitOnCharAux sep cs (c :: acc)

/-- Models Rust `str::split(sep: char)`: `"" ↦ [""]`, adjacent separators
produce empty pieces, and the result is never the empty list. -/
def splitOnChar (sep : Char) (s : String) : List String :=
  splitOnCharAux sep s.data []

/-- Models Rust `str::starts_with(&str)`. -/
def startsWithStr (s pre : String) : Bool :=
  pre.data.isPrefixOf s.data

/-- Models Rust `str::ends_with(&str)`. -/
def endsWithStr (s suf : String) : Bool :=
  suf.data.isSuffixOf s.data

/-- Helper for `containsStr`: substring search over char lists. -/
def containsSubAux (pat : List Char) : List Char → Bool
  | [] => pat.isPrefixOf []
  | c :: cs => pat.isPrefixOf (c :: cs) || containsSubAux pat cs

/-- Models Rust `str::contains(&str)`. -/
def containsStr (s pat : String) : Bool :=
  containsSubAux pat.data s.data

/-- Models Rust `str::strip_prefix(&str)` (`Option` on failure). -/
def stripPrefixOpt (pre s : String) : Option String :=
  if pre.data.isPrefixOf s.data then some ⟨s.data.drop pre.data.length⟩ else none

/-- Fuel-indexed helper for `trimEndMatches`.  One unit of fuel per
removed occurrence; fuel `s.length` always suffices because each step
removes at least one character. -/
def dropSuffixAllF : Nat → List Char → List Char → List Char
  | 0, _, l => l
  | fuel + 1, pat, l =>
      if pat ≠ [] ∧ pat.isSuffixOf l then
        dropSuffixAllF fuel pat (l.take (l.length - pat.length))
      else l

/-- Models Rust `str::trim_end_matches(&str)` / `trim_end_matches(char)`:
repeatedly removes the suffix while it matches. -/
def trimEndMatches (s pat : String) : String :=
  ⟨dropSuffixAllF s.data.length pat.data s.data⟩

/-- Models Rust `str::trim_start_matches(char)` for a single character. -/
def trimCharStart (c : Char) (s : String) : String :=
  ⟨s.data.dropWhile (fun d => d == c)⟩

/-- Models Rust `str::trim_matches(char)` for a single character. -/
def trimCharBoth (c : Char) (s : String) : String :=
  ⟨((s.data.dropWhile (fun d => d == c)).reverse.dropWhile (fun d => d == c)).reverse⟩

/-- Splits a single path component at the last dot, following the rules of
Rust `Path::file_stem` / `Path::extension`: a leading dot does not begin an
extension.  Returns `(stem, extension?)`. -/
def splitAtLastDot (name : String) : String × Option String :=
  let cs := name.data
  match ((List.range cs.length).filter (fun i => 0 < i ∧ cs.getD i ' ' == '.')).getLast? with
  | none => (name, none)
  | some i => (⟨cs.take i⟩, some ⟨cs.drop (i + 1)⟩)

/-- Models `Path::file_name` on a slash-separated relative path string:
the last non-empty component, if any. -/
def lastPathComponent (p : String) : Option String :=
  ((splitOnChar '/' p).filter (fun s => !(s == ""))).getLast?

/-- Models Rust `[&str]::join(", ")` as used for category lists. -/
def joinSep (sep : String) : List String → String
  | [] => ""
  | [x] => x
  | x :: xs => x ++ sep ++ joinSep sep xs

/-- Models Rust `u32::from_str` (`"…".parse::<u32>()`): optional leading
`+`, at least one ASCII digit, value below `2^32`; anything else fails. -/
def parseU32 (s : String) : Option Nat :=
  let t := if startsWithStr s "+" then (⟨s.data.drop 1⟩ : String) else s
  if t.data.isEmpty then none
  else if t.data.all Char.isDigit then
    let n := t.data.foldl (fun acc c => acc * 10 + (c.toNat - 48)) 0
    if n < 4294967296 then some n else none
  else none

/-- `DocumentType` from src/models.rs. -/
inductive DocumentType where
  | Agreements
  | C1Diagram (project : String)
  | C2Diagram (project : String)
  | C3Diagram (project : String)
  | C4Diagram (project : String)
  | ErdDiagram (project : String)
  | AdrDocument (project : String)
  | OpenApiSpec (project : String)
  | GuideDoc (product : String)
deriving DecidableEq

/-- `ResourceInfo` from src/models.rs. -/
structure ResourceInfo where
  uri : String
  file_path : String
  area : String
  lang : String
  category : List String
  project : String
  mime_type : String
  size : Nat
  description : String
deriving DecidableEq

/-- `DocumentType::get_uri_prefix` from src/models.rs (the Rust name ends
in a token this development avoids in identifiers). -/
def uriPrefixOf : DocumentType → String
  | .Agreements => "docs://agreements/"
  | .ErdDiagram project => "docs://architecture/erd/" ++ project ++ "/"
  | .C1Diagram project | .C2Diagram project | .C3Diagram project =>
      "docs://architecture/" ++ project ++ "/"
  | .C4Diagram project => "docs://architecture/" ++ project ++ "/c4/"
  | .AdrDocument project => "docs://architecture/" ++ project ++ "/adr/"
  | .OpenApiSpec project => "docs://openapi/" ++ project ++ "/"
  | .GuideDoc product => "docs://guides/" ++ product ++ "/"

/-- The ADR-number token: `filename.split('-').next().unwrap_or("unknown")
.trim_end_matches(".mdx")`, shared by `process_file`,
`process_file_universal` and `generate_description` in src/models.rs. -/
def adr_number_token (filename : String) : String :=
  trimEndMatches
    (match splitOnChar '-' filename with
     | [] => "unknown"
     | t :: _ => t)
    ".mdx"

/-- `DocumentType::generate_description` from src/models.rs. -/
def generate_description (dt : DocumentType) (area lang : String)
    (categories : List String) (filename : String) : String :=
  match dt with
  | .Agreements =>
      "Agreement document: " ++ joinSep ", " categories ++ " - " ++ area ++ " (" ++ lang ++ ")"
  | .ErdDiagram project =>
      "ERD diagram for " ++ project ++ " project: " ++ trimEndMatches filename ".mdx"
  | .C1Diagram project => "C1 diagram for " ++ project ++ " project"
  | .C2Diagram project => "C2 diagram for " ++ project ++ " project"
  | .C3Diagram project => "C3 diagram for " ++ project ++ " project"
  | .C4Diagram project =>
      "C4 diagram for " ++ trimEndMatches filename ".mdx" ++ " service in " ++ project ++ " project"
  | .AdrDocument project =>
      "ADR-" ++ adr_number_token filename ++ " for " ++ project ++ " project"
  | .OpenApiSpec project =>
      "OpenAPI specification for " ++ trimEndMatches filename ".yaml" ++
        " endpoint in " ++ project ++ " project"
  | .GuideDoc product =>
      let stem := ((splitOnChar '.' filename).reverse.getD 1 filename)
      "Guide: " ++ product ++ " - " ++ ⟨stem.data.map (fun c => if c == '_' then ' ' else c)⟩

/-- Case-insensitive ASCII extension test, models
`ext.eq_ignore_ascii_case(pat)` applied to `Path::new(f).extension()`
(`pat` is given lowercase in every use site). -/
def extensionIsIgnoreAsciiCase (filename pat : String) : Bool :=
  match (splitAtLastDot filename).2 with
  | some e => asciiLower e == pat
  | none => false

/-- `DocumentScanner::should_process_file` from src/models.rs (the strict,
typed-walk admission rule). -/
def should_process_file (dt : DocumentType) (filename : String) : Bool :=
  match dt with
  | .C1Diagram _ => filename == "c1.mdx"
  | .C2Diagram _ => filename == "c2.mdx"
  | .C3Diagram _ => filename == "c3.mdx"
  | .C4Diagram _ | .ErdDiagram _ | .AdrDocument _ =>
      extensionIsIgnoreAsciiCase filename "mdx"
  | .OpenApiSpec _ => extensionIsIgnoreAsciiCase filename "yaml"
  | .Agreements =>
      extensionIsIgnoreAsciiCase filename "md" ||
      extensionIsIgnoreAsciiCase filename "mdx" ||
      extensionIsIgnoreAsciiCase filename "txt"
  | .GuideDoc _ => false

/-- `DocumentScanner::should_process_file_with_extensions` from
src/models.rs (the allow-list admission rule). -/
def should_process_file_with_extensions (dt : DocumentType) (filename : String)
    (allowed_extensions : List String) : Bool :=
  let extension := asciiLower ((splitAtLastDot filename).2.getD "")
  let is_allowed_ext :=
    if allowed_extensions.isEmpty then true
    else allowed_extensions.any (fun e => e == extension)
  let file_stem := (splitAtLastDot filename).1
  match dt with
  | .C1Diagram _ => file_stem == "c1" && is_allowed_ext
  | .C2Diagram _ => file_stem == "c2" && is_allowed_ext
  | .C3Diagram _ => file_stem == "c3" && is_allowed_ext
  | .C4Diagram _ | .ErdDiagram _ | .AdrDocument _ | .OpenApiSpec _ | .GuideDoc _ =>
      is_allowed_ext
  | .Agreements => should_process_file dt filename

/-- `DocumentScanner::get_mime_type` from src/models.rs. -/
def get_mime_type (filename : String) : String :=
  let extension := asciiLower ((splitAtLastDot filename).2.getD "")
  if extension == "md" || extension == "mdx" then "text/markdown"
  else if extension == "yaml" || extension == "yml" then "application/x-yaml"
  else if extension == "rst" then "text/x-rst"
  else "text/plain"

example : trimAscii " value1 " = "value1" := by decide
example : splitOnChar '|' "" = [""] := by decide
example : splitOnChar '|' "a|b" = ["a", "b"] := by decide
example : splitAtLastDot "c1.txt" = ("c1", some "txt") := by decide
example : splitAtLastDot ".mdx" = (".mdx", none) := by decide
example : adr_number_token "001-temporal.mdx" = "001" := by decide
example : adr_number_token "readme.mdx" = "readme" := by decide
example : should_process_file (.C1Diagram "p") "c1.mdx" = true := by decide
example : should_process_file (.C1Diagram "p") "c1.txt" = false := by decide
example : should_process_file (.Agreements) "api.MDX" = true := by decide
example : get_mime_type "a.yml" = "application/x-yaml" := by decide
example : parseU32 "007" = some 7 := by decide
example : parseU32 "4294967296" = none := by decide
example : parseU32 "+5" = some 5 := by decide
example : parseU32 "x1" = none := by decide

/-- Outcome of the path-shape match inside `DocumentScanner::process_file`
(src/models.rs, the `match path_parts.as_slice()` expression): an index
entry's metadata tuple, a silent skip, or an invalid-structure error. -/
inductive ClassifyOutcome where
  | entry (uri area lang : String) (categories : List String) (project : String)
  | skipped
  | invalid
deriving DecidableEq

/-- Arms 1-5 of the `process_file` path match (src/models.rs): the five
`content/docs/architecture/…` shapes, in source order.  `rest` is the
segment list after `content/docs`.  `none` means no arm matched. -/
def classify_architecture_arms (dt : DocumentType) (rest : List String) :
    Option ClassifyOutcome :=
  match rest with
  | ["architecture", project, "c4", fname] =>
      some (.entry ("docs://architecture/" ++ project ++ "/" ++ fname)
        "architecture" ""
        [(match dt with
          | .C1Diagram _ => "c1"
          | .C2Diagram _ => "c2"
          | .C3Diagram _ => "c3"
          | _ => "c4")]
        project)
  | ["architecture", project, "c4", "services", fname] =>
      some (.entry ("docs://architecture/" ++ project ++ "/c4/" ++ fname)
        "architecture" "" ["c4"] project)
  | ["architecture", project, "erd", "services", fname] =>
      some (.entry ("docs://architecture/erd/" ++ project ++ "/" ++ fname)
        "architecture" "" ["erd"] project)
  | ["architecture", project, "erd", fname] =>
      some (.entry ("docs://architecture/erd/" ++ project ++ "/" ++ fname)
        "architecture" "" ["erd"] project)
  | ["architecture", project, "adr", fname] =>
      some (.entry ("docs://architecture/" ++ project ++ "/adr/" ++ fname)
        "architecture" "" ["adr", "ADR-" ++ adr_number_token fname] project)
  | _ => none

/-- Arms 6-9 of the `process_file` path match: the four
`content/docs/openapi-spec/…` shapes, in source order.  `rest` is the
segment list after `content/docs`. -/
def classify_openapi_arms (rest : List String) : Option ClassifyOutcome :=
  match rest with
  | ["openapi-spec", project, service, version, access_level, "endpoints", fname] =>
      some (.entry ("docs://openapi/" ++ project ++ "/" ++ service ++ "/" ++ version ++
          "/" ++ access_level ++ "/" ++ fname)
        "openapi" "" ["openapi", service, version, access_level] project)
  | ["openapi-spec", project, service, version, access_level, fname] =>
      some (.entry ("docs://openapi/" ++ project ++ "/" ++ service ++ "/" ++ version ++
          "/" ++ access_level ++ "/" ++ fname)
        "openapi" "" ["openapi", service, version, access_level] project)
  | ["openapi-spec", project, service, version, access_level, sub_category,
     "endpoints", fname] =>
      some (.entry ("docs://openapi/" ++ project ++ "/" ++ service ++ "/" ++ version ++
          "/" ++ access_level ++ "/" ++ sub_category ++ "/" ++ fname)
        "openapi" "" ["openapi", service, version, access_level, sub_category] project)
  | ["openapi-spec", project, service, version, access_level, sub_category, fname] =>
      some (.entry ("docs://openapi/" ++ project ++ "/" ++ service ++ "/" ++ version ++
          "/" ++ access_level ++ "/" ++ sub_category ++ "/" ++ fname)
        "openapi" "" ["openapi", service, version, access_level, sub_category] project)
  | _ => none

/-- Arms 10-13 of the `process_file` path match: the four bare
`openapi-spec/…` shapes (no `content/docs` root), in source order,
matched against the full segment list. -/
def classify_openapi_bare_arms (path_parts : List String) : Option ClassifyOutcome :=
  match path_parts with
  | ["openapi-spec", project, service, version, access_level, "endpoints", fname] =>
      some (.entry ("docs://openapi/" ++ project ++ "/" ++ service ++ "/" ++ version ++
          "/" ++ access_level ++ "/" ++ fname)
        "openapi" "" ["openapi", service, version, access_level] project)
  | ["openapi-spec", project, service, version, access_level, fname] =>
      some (.entry ("docs://openapi/" ++ project ++ "/" ++ service ++ "/" ++ version ++
          "/" ++ access_level ++ "/" ++ fname)
        "openapi" "" ["openapi", service, version, access_level] project)
  | ["openapi-spec", project, service, version, access_level, sub_category,
     "endpoints", fname] =>
      some (.entry ("docs://openapi/" ++ project ++ "/" ++ service ++ "/" ++ version ++
          "/" ++ access_level ++ "/" ++ sub_category ++ "/" ++ fname)
        "openapi" "" ["openapi", service, version, access_level, sub_category] project)
  | ["openapi-spec", project, service, version, access_level, sub_category, fname] =>
      some (.entry ("docs://openapi/" ++ project ++ "/" ++ service ++ "/" ++ version ++
          "/" ++ access_level ++ "/" ++ sub_category ++ "/" ++ fname)
        "openapi" "" ["openapi", service, version, access_level, sub_category] project)
  | _ => none

/-- Arms 14-15 of the `process_file` path match: the generic
`content/docs/{area}/{lang}/{category}/…` shape (the trailing `..` of the
source pattern also matches zero further segments, so three or more
segments after `content/docs` suffice), then the skip arm
`content/docs/{area}/…` for one or two remaining segments.  `filename`
is the outer file name (`Path::file_name`), which the source's generic
arm uses for the URI. -/
def classify_generic_or_skip (dt : DocumentType) (rest : List String)
    (filename : String) : ClassifyOutcome :=
  match rest with
  | area :: lang :: category :: _ =>
      .entry (uriPrefixOf dt ++ area ++ "/" ++ lang ++ "/" ++ category ++ "/" ++ filename)
        area lang
        (if dt = .Agreements then ["agreements", category] else [category])
        ""
  | _ :: _ => .skipped
  | [] => .invalid

/-- The ordered, first-match-wins path-shape match of
`DocumentScanner::process_file` (src/models.rs, the
`match path_parts.as_slice()` expression).  The source's single ordered
match is grouped here by its leading discriminant — the architecture
arms, openapi-spec arms, bare openapi-spec arms, then the generic and
skip arms — with the source's arm order preserved inside each group; the
groups are mutually exclusive on their literal segments, so this is the
same first-match-wins function. -/
def classify_structural (dt : DocumentType) (path_parts : List String)
    (filename : String) : ClassifyOutcome :=
  match path_parts with
  | "content" :: "docs" :: rest =>
      match classify_architecture_arms dt rest with
      | some r => r
      | none =>
          match classify_openapi_arms rest with
          | some r => r
          | none => classify_generic_or_skip dt rest filename
  | _ =>
      match classify_openapi_bare_arms path_parts with
      | some r => r
      | none => .invalid

/-- The index: `BTreeMap<DocumentKey, ResourceInfo>` as a key-sorted
association list. -/
abbrev Index := List (String × ResourceInfo)

/-- `BTreeMap::insert`: overwrites an existing key, otherwise inserts in
key order (last write wins). -/
def insertIndex : Index → String → ResourceInfo → Index
  | [], key, v => [(key, v)]
  | (k, w) :: rest, key, v =>
      if key == k then (key, v) :: rest
      else if key < k then (key, v) :: (k, w) :: rest
      else (k, w) :: insertIndex rest key v

/-- `BTreeMap::get`. -/
def lookupIndex : Index → String → Option ResourceInfo
  | [], _ => none
  | (k, v) :: rest, key => if key == k then some v else lookupIndex rest key

deriving instance DecidableEq for Except

/-- `DocumentScanner::process_file` from src/models.rs: admission check,
path-shape classification, then insertion.  `relative_path` is the path
below the docs root, `filename` its last component, `fsize` the metadata
size (metadata reads cannot fail in the model). -/
def process_file (dt : DocumentType) (relative_path filename : String) (fsize : Nat)
    (resources : Index) : Except String Index :=
  if !(should_process_file dt filename) then .ok resources
  else
    match classify_structural dt (splitOnChar '/' relative_path) filename with
    | .invalid => .error ("Invalid path structure: " ++ relative_path)
    | .skipped => .ok resources
    | .entry uri area lang categories project =>
        let mime_type := get_mime_type filename
        let size := min fsize 4294967295
        let description := generate_description dt area lang categories filename
        .ok (insertIndex resources uri
          { uri := uri, file_path := relative_path, area := area, lang := lang,
            category := categories, project := project, mime_type := mime_type,
            size := size, description := description })

example :
    process_file (.AdrDocument "proj-a")
      "content/docs/architecture/proj-a/adr/001-x.mdx" "001-x.mdx" 3 [] =
    Except.ok [("docs://architecture/proj-a/adr/001-x.mdx",
      { uri := "docs://architecture/proj-a/adr/001-x.mdx",
        file_path := "content/docs/architecture/proj-a/adr/001-x.mdx",
        area := "architecture", lang := "",
        category := ["adr", "ADR-001"], project := "proj-a",
        mime_type := "text/markdown", size := 3,
        description := "ADR-001 for proj-a project" })] := by decide

example :
    classify_structural (.ErdDiagram "proj-b")
      ["content", "docs", "architecture", "proj-b", "erd", "mail-transport.mdx"]
      "mail-transport.mdx" =
    .entry "docs://architecture/erd/proj-b/mail-transport.mdx" "architecture" ""
      ["erd"] "proj-b" := by decide

example :
    classify_structural (.OpenApiSpec "mpa")
      ["content", "docs", "openapi-spec", "mpa", "activation", "v2", "public",
       "endpoints", "get-customer-activation-info.yaml"]
      "get-customer-activation-info.yaml" =
    .entry "docs://openapi/mpa/activation/v2/public/get-customer-activation-info.yaml"
      "openapi" "" ["openapi", "activation", "v2", "public"] "mpa" := by decide

/-- One filesystem entry as enumerated by `std::fs::read_dir`: a plain file
with its metadata size, or a subdirectory with its own entries, in
enumeration order. -/
inductive FsEntry : Type where
  | file : String → Nat → FsEntry
  | dir : String → List FsEntry → FsEntry

/-- The per-type descent decision of
`DocumentScanner::scan_directory_recursive` (src/models.rs, lines
260-312): C1-C3 never descend, C4 descends only into `services`, every
other type always descends. -/
def typed_descends (dt : DocumentType) (dirname : String) : Bool :=
  match dt with
  | .C1Diagram _ | .C2Diagram _ | .C3Diagram _ => false
  | .C4Diagram _ => dirname == "services"
  | _ => true

/-- `DocumentScanner::scan_directory_recursive` from src/models.rs.
`dir_path` is the docs-root-relative path of the directory being read, so
a file named `n` in it has relative path `dir_path ++ "/" ++ n`.  The
`?` operator on `process_file` aborts the walk at the first error; the
entries inserted before the error remain (the Rust `resources` map is
mutated in place).  Result: the updated index and the error, if any. -/
def scan_directory_recursive (dt : DocumentType) (dir_path : String)
    (resources : Index) : List FsEntry → Index × Option String
  | [] => (resources, none)
  | .file name fsize :: rest =>
      match process_file dt (dir_path ++ "/" ++ name) name fsize resources with
      | .ok r2 => scan_directory_recursive dt dir_path r2 rest
      | .error e => (resources, some e)
  | .dir name entries :: rest =>
      if typed_descends dt name then
        match scan_directory_recursive dt (dir_path ++ "/" ++ name) resources entries with
        | (r2, none) => scan_directory_recursive dt dir_path r2 rest
        | (r2, some e) => (r2, some e)
      else scan_directory_recursive dt dir_path resources rest

/-- What a configured scan-target path resolves to on disk. -/
inductive ScanTarget where
  | missing
  | plainFile (fsize : Nat)
  | directory (entries : List FsEntry)
  | otherEntry

/-- `DocumentScanner::scan_area` from src/models.rs: a missing or
non-directory area path is an error; otherwise the typed recursive walk
runs.  Errors carry the partially updated index (the Rust map is mutated
in place). -/
def scan_area (dt : DocumentType) (area_path : String) (target : ScanTarget)
    (resources : Index) : Index × Option String :=
  match target with
  | .missing => (resources, some ("Area path does not exist: " ++ area_path))
  | .plainFile _ => (resources, some ("Area path is not a directory: " ++ area_path))
  | .otherEntry => (resources, some ("Area path is not a directory: " ++ area_path))
  | .directory entries => scan_directory_recursive dt area_path resources entries

/-- `relative_under_target` from src/models.rs. -/
def relative_under_target (relative_path_from_docs_root scan_root : String) : String :=
  let scan_root2 := trimEndMatches scan_root "/"
  let pre := scan_root2 ++ "/"
  let rest := (stripPrefixOpt pre relative_path_from_docs_root).getD
    relative_path_from_docs_root
  trimCharStart '/' rest

/-- `guess_agreements_area` from src/models.rs. -/
def guess_agreements_area (scan_root : String) : String :=
  let normalized := asciiLower (trimCharBoth '/' scan_root)
  if normalized == "backend" || endsWithStr normalized "/backend" ||
      containsStr normalized "/backend/" then "backend"
  else if normalized == "frontend" || endsWithStr normalized "/frontend" ||
      containsStr normalized "/frontend/" then "frontend"
  else if normalized == "quality-assurance" || endsWithStr normalized "/quality-assurance" ||
      containsStr normalized "/quality-assurance/" then "quality-assurance"
  else
    let last := trimAscii ((splitOnChar '/' normalized).reverse.headD "")
    if last == "docs" || last == "" then "" else last

/-- `parse_agreements_subpath` from src/models.rs: returns the inferred
`(lang, categories)` for an agreements file below its scan target. -/
def parse_agreements_subpath (subpath area : String) : String × List String :=
  let parts := (splitOnChar '/' subpath).filter (fun p => !(p == ""))
  if (area == "backend" || area == "frontend") && 2 ≤ parts.length then
    (parts.headD "", (parts.drop 1).take (parts.length - 2))
  else
    ("", parts.take (parts.length - 1))

/-- The URI built by `DocumentScanner::process_file_universal`
(src/models.rs, lines 785-796): type prefix plus subpath, with the
guessed area spliced in for agreements. -/
def universal_uri (dt : DocumentType) (scan_root subpath : String) : String :=
  match dt with
  | .Agreements =>
      let area := guess_agreements_area scan_root
      let uri_subpath :=
        if area == "" then subpath
        else trimEndMatches area "/" ++ "/" ++ subpath
      uriPrefixOf .Agreements ++ uri_subpath
  | _ => uriPrefixOf dt ++ subpath

/-- The `(area, lang, categories, project)` tuple built by
`DocumentScanner::process_file_universal` (src/models.rs, lines 798-872). -/
def universal_metadata (dt : DocumentType) (scan_root subpath filename : String) :
    String × String × List String × String :=
  match dt with
  | .C1Diagram project => ("architecture", "", ["c1"], project)
  | .C2Diagram project => ("architecture", "", ["c2"], project)
  | .C3Diagram project => ("architecture", "", ["c3"], project)
  | .C4Diagram project => ("architecture", "", ["c4"], project)
  | .ErdDiagram project => ("architecture", "", ["erd"], project)
  | .AdrDocument project =>
      ("architecture", "", ["adr", "ADR-" ++ adr_number_token filename], project)
  | .OpenApiSpec project => ("openapi", "", ["openapi"], project)
  | .GuideDoc product => ("guides", "", ["guides"], product)
  | .Agreements =>
      let area := guess_agreements_area scan_root
      let parsed := parse_agreements_subpath subpath area
      ((if area == "" then "agreements" else area), parsed.1,
        "agreements" :: parsed.2, "")

/-- `DocumentScanner::process_file_universal` from src/models.rs (its
only error sources are filesystem calls, which cannot fail in the model,
so it returns the updated index directly). -/
def process_file_universal (dt : DocumentType) (relative_path filename : String)
    (fsize : Nat) (scan_root : String) (allowed_extensions : List String)
    (resources : Index) : Index :=
  if !(should_process_file_with_extensions dt filename allowed_extensions) then resources
  else
    let subpath := relative_under_target relative_path scan_root
    let uri := universal_uri dt scan_root subpath
    let meta := universal_metadata dt scan_root subpath filename
    let mime_type := get_mime_type filename
    let size := min fsize 4294967295
    let description := generate_description dt meta.1 meta.2.1 meta.2.2.1 filename
    insertIndex resources uri
      { uri := uri, file_path := relative_path, area := meta.1, lang := meta.2.1,
        category := meta.2.2.1, project := meta.2.2.2, mime_type := mime_type,
        size := size, description := description }

/-- `DocumentScanner::scan_directory_recursive_universal` from
src/models.rs: descends into every subdirectory unconditionally. -/
def scan_directory_recursive_universal (dt : DocumentType) (scan_root : String)
    (allowed_extensions : List String) (dir_path : String) (resources : Index) :
    List FsEntry → Index
  | [] => resources
  | .file name fsize :: rest =>
      scan_directory_recursive_universal dt scan_root allowed_extensions dir_path
        (process_file_universal dt (dir_path ++ "/" ++ name) name fsize scan_root
          allowed_extensions resources) rest
  | .dir name entries :: rest =>
      scan_directory_recursive_universal dt scan_root allowed_extensions dir_path
        (scan_directory_recursive_universal dt scan_root allowed_extensions
          (dir_path ++ "/" ++ name) resources entries) rest

/-- `DocumentScanner::scan_target_with_extensions` from src/models.rs:
missing or non-directory targets are skipped with a warning; a target that
is itself a file is classified directly; a directory starts the universal
walk. -/
def scan_target_with_extensions (dt : DocumentType) (target_path : String)
    (target : ScanTarget) (allowed_extensions : List String) (resources : Index) :
    Index :=
  match target with
  | .missing => resources
  | .plainFile fsize =>
      match lastPathComponent target_path with
      | some fname =>
          process_file_universal dt target_path fname fsize target_path
            allowed_extensions resources
      | none => resources
  | .otherEntry => resources
  | .directory entries =>
      scan_directory_recursive_universal dt target_path allowed_extensions
        target_path resources entries

/-- `DocumentScanner::scan_documents` from src/models.rs: agreements are
delegated to the universal walk with an empty extension list; every other
type runs the typed area walk, and per-area errors are logged and
swallowed so the remaining areas still run. -/
def scan_documents (dt : DocumentType) (area_paths : List (String × ScanTarget))
    (resources : Index) : Index :=
  match dt with
  | .Agreements =>
      area_paths.foldl
        (fun r t => scan_target_with_extensions dt t.1 t.2 [] r) resources
  | _ =>
      area_paths.foldl (fun r t => (scan_area dt t.1 t.2 r).1) resources

/-- `DocumentScanner::scan_documents_with_extensions` from src/models.rs:
per-target errors are logged and swallowed. -/
def scan_documents_with_extensions (dt : DocumentType)
    (scan_targets : List (String × ScanTarget)) (allowed_extensions : List String)
    (resources : Index) : Index :=
  scan_targets.foldl
    (fun r t => scan_target_with_extensions dt t.1 t.2 allowed_extensions r) resources

example :
    scan_documents_with_extensions (.C1Diagram "proj-a")
      [("arch/c4", .directory [.file "c1.puml" 5]), ("missing/path", .missing)]
      ["puml", "dot", "mdx"] [] =
    [("docs://architecture/proj-a/c1.puml",
      { uri := "docs://architecture/proj-a/c1.puml", file_path := "arch/c4/c1.puml",
        area := "architecture", lang := "", category := ["c1"], project := "proj-a",
        mime_type := "text/plain", size := 5,
        description := "C1 diagram for proj-a project" })] := by
  simp [scan_documents_with_extensions, scan_target_with_extensions,
    scan_directory_recursive_universal, process_file_universal]
  decide

/-- `GetDocsListArgs` from src/server.rs (`page` and `limit` are `u32`). -/
structure GetDocsListArgs where
  area : Option String
  lang : Option String
  category : Option String
  page : Option Nat
  limit : Option Nat
deriving DecidableEq

/-- `DocsListResponse` from src/server.rs. -/
structure DocsListResponse where
  documents : List ResourceInfo
  total_pages : Nat
  current_page : Nat
  limit : Nat
  total_documents : Nat
deriving DecidableEq

/-- Result of one tool call: success, an `invalid_params`-style error with
its code, or a Rust panic (which the source does not catch). -/
inductive ToolOutcome (α : Type) where
  | ok (val : α)
  | err (code : String)
  | panicked (msg : String)
deriving DecidableEq

/-- The error code of a tool outcome, `none` for success or panic. -/
def tool_error_code {α : Type} : ToolOutcome α → Option String
  | .err c => some c
  | _ => none

/-- `DocumentServer::matches_filter` from src/server.rs. -/
def matches_filter (value : String) (filter : Option String) : Bool :=
  match filter with
  | none => true
  | some filter_str =>
      (splitOnChar '|' filter_str).any (fun filter_value => trimAscii filter_value == value)

/-- `DocumentServer::matches_category_filter` from src/server.rs. -/
def matches_category_filter (categories : List String) (filter : Option String) : Bool :=
  match filter with
  | none => true
  | some filter_str =>
      let filter_values := (splitOnChar '|' filter_str).map trimAscii
      categories.any (fun category =>
        filter_values.any (fun filter_value => filter_value == category))

/-- `DocumentServer::filter_documents` from src/server.rs; `docs` is
`self.resources.values()` in key order. -/
def filter_documents (docs : List ResourceInfo) (args : GetDocsListArgs) :
    List ResourceInfo :=
  docs.filter (fun info =>
    matches_filter info.area args.area &&
    matches_filter info.lang args.lang &&
    matches_category_filter info.category args.category)

/-- `DocumentServer::get_docs_list` from src/server.rs.  Validation runs
before filtering; the u32 arithmetic wraps at `2^32`; the final slice
`filtered_docs[start_index..end_index]` panics whenever
`start_index > end_index` (Rust slice-range semantics; `end_index` can
never exceed the length because of the `min`). -/
def get_docs_list (docs : List ResourceInfo) (args : GetDocsListArgs) :
    ToolOutcome DocsListResponse :=
  let page := args.page.getD 1
  let limit := args.limit.getD 50
  if page = 0 then .err "invalid_page"
  else if limit = 0 ∨ 200 < limit then .err "invalid_limit"
  else
    let filtered_docs := filter_documents docs args
    let total_documents := filtered_docs.length % 4294967296
    let total_pages := ((total_documents + limit - 1) % 4294967296) / limit
    let start_index := ((page - 1) * limit) % 4294967296
    let end_index := min (start_index + limit) filtered_docs.length
    if start_index ≤ end_index then
      .ok { documents := (filtered_docs.drop start_index).take (end_index - start_index),
            total_pages := total_pages, current_page := page, limit := limit,
            total_documents := total_documents }
    else .panicked "slice index starts after it ends"

/-- `AdrListResponse` from src/server.rs. -/
structure AdrListResponse where
  adr_documents : List ResourceInfo
  total_adr_documents : Nat
deriving DecidableEq

/-- The ADR filter of `get_all_adr_documents` (src/server.rs line 328):
some category starts with `"ADR-"`. -/
def has_adr_category (info : ResourceInfo) : Bool :=
  info.category.any (fun cat => startsWithStr cat "ADR-")

/-- The `get_adr_number` closure of `get_all_adr_documents`
(src/server.rs lines 336-345). -/
def get_adr_number (info : ResourceInfo) : Nat :=
  (((info.category.find? (fun cat => startsWithStr cat "ADR-")).bind
      (fun cat => stripPrefixOpt "ADR-" cat)).bind parseU32).getD 0

/-- The sort key order of `get_all_adr_documents`. -/
def adrLe (a b : ResourceInfo) : Prop :=
  get_adr_number a ≤ get_adr_number b

instance : DecidableRel adrLe :=
  fun a b => inferInstanceAs (Decidable (get_adr_number a ≤ get_adr_number b))

instance : IsTotal ResourceInfo adrLe :=
  ⟨fun a b => Nat.le_total (get_adr_number a) (get_adr_number b)⟩

instance : IsTrans ResourceInfo adrLe :=
  ⟨fun _ _ _ hab hbc => Nat.le_trans hab hbc⟩

/-- `DocumentServer::get_all_adr_documents` from src/server.rs: filter to
documents with an `ADR-` category, stable-sort them by ADR number
(`sort_by` is a stable sort, so any stable sort by the same key is the
same function; `List.insertionSort` is stable). -/
def get_all_adr_documents (docs : List ResourceInfo) : AdrListResponse :=
  let adr_documents := docs.filter has_adr_category
  let sorted := List.insertionSort adrLe adr_documents
  { adr_documents := sorted, total_adr_documents := sorted.length % 4294967296 }

/-- Result of `get_resource_content`: success carries the `file_path`
handed to the content-reading collaborator. -/
inductive ResourceContentResult where
  | ok (file_path : String)
  | invalidPath
  | notFound
deriving DecidableEq

/-- `DocumentServer::get_resource_content` from src/server.rs: the
`docs://` precheck, then the index lookup (the actual file read is the
external collaborator and is not modeled). -/
def get_resource_content (resources : Index) (path : String) : ResourceContentResult :=
  if !(startsWithStr path "docs://") then .invalidPath
  else
    match lookupIndex resources path with
    | some info => .ok info.file_path
    | none => .notFound

example :
    get_docs_list []
      { area := none, lang := none, category := none, page := some 2, limit := some 50 } =
    .panicked "slice index starts after it ends" := by decide

example :
    get_docs_list []
      { area := none, lang := none, category := none, page := some 1, limit := none } =
    .ok { documents := [], total_pages := 0, current_page := 1, limit := 50,
          total_documents := 0 } := by decide

example : matches_filter "value1" (some " value1 | value2 ") = true := by decide
example : matches_filter "nomatch" (some "value1|value2") = false := by decide
example : matches_filter "anything" none = true := by decide
example : matches_category_filter ["other", "value2"] (some "value1|value2") = true := by
  decide

/-- The classified good file of the C4 counterexample scenario. -/
def c4GoodKey : String := "docs://architecture/proj-a/adr/001-x.mdx"

/-- Its `ResourceInfo` (as produced by `process_file`). -/
def c4GoodInfo : ResourceInfo :=
  { uri := "docs://architecture/proj-a/adr/001-x.mdx",
    file_path := "content/docs/architecture/proj-a/adr/001-x.mdx",
    area := "architecture", lang := "",
    category := ["adr", "ADR-001"], project := "proj-a",
    mime_type := "text/markdown", size := 3,
    description := "ADR-001 for proj-a project" }

/-- The subtree `docs/architecture/proj-a/adr/001-x.mdx` holding the good
file of the C4 counterexample scenario. -/
def c4GoodTree : FsEntry :=
  .dir "docs" [.dir "architecture" [.dir "proj-a" [.dir "adr" [.file "001-x.mdx" 3]]]]

/-- A string prefix survives appending on the right. -/
theorem startsWith_extend {p q : String} (s : String)
    (h : startsWithStr q p = true) : startsWithStr (q ++ s) p = true := by
  simp only [startsWithStr, String.data_append] at h ⊢
  rw [List.isPrefixOf_iff_prefix] at h ⊢
  exact h.trans (List.prefix_append _ _)

/-- Every document-type URI prefix starts with the `docs://` scheme. -/
theorem uriPrefixOf_startsWith (dt : DocumentType) :
    startsWithStr (uriPrefixOf dt) "docs://" = true := by
  cases dt <;> simp only [uriPrefixOf] <;>
    first
      | decide
      | (apply startsWith_extend
         apply startsWith_extend
         decide)

/-- A successful index lookup means the key is literally present. -/
theorem lookupIndex_isSome_mem {resources : Index} {key : String}
    (h : (lookupIndex resources key).isSome = true) : ∃ v, (key, v) ∈ resources := by
  induction resources with
  | nil => simp [lookupIndex] at h
  | cons kv rest ih =>
    obtain ⟨k, v⟩ := kv
    by_cases hk : key == k
    · have hkeq : key = k := by simpa using hk
      exact ⟨v, by simp [hkeq]⟩
    · rw [lookupIndex] at h
      simp only [hk, if_neg] at h
      · obtain ⟨w, hw⟩ := ih (by simpa using h)
        exact ⟨w, List.mem_cons_of_mem _ hw⟩

/-- Claim C1 (status: code_bug): at the failing input — no matching
documents, `page = 2`, `limit = 50`, so the start index 50 exceeds the
filtered total 0 — `get_docs_list` does not return a successful empty
page: it evaluates `filtered_docs[50..0]`, whose start exceeds its end,
and panics.  The claim (and spec) say the slice is empty, not an error;
the clamping of `end_index` with `min` shows that was the intent. -/
theorem c1_get_docs_list_panics_beyond_last_page :
    get_docs_list []
      { area := none, lang := none, category := none,
        page := some 2, limit := some 50 } =
      ToolOutcome.panicked "slice index starts after it ends" ∧
    (∀ r : DocsListResponse,
      get_docs_list []
        { area := none, lang := none, category := none,
          page := some 2, limit := some 50 } ≠ ToolOutcome.ok r) := by
  refine ⟨by decide, ?_⟩
  intro r
  simp [get_docs_list, filter_documents]

/-- Claim C2, counterexample: `"c1.txt"` has filename stem `c1`, yet the
strict policy (`should_process_file`) rejects it for `C1Diagram`; the
claim says any extension with stem `c1` is admitted. -/
theorem c2_counterexample_stem_c1_txt_rejected :
    (splitAtLastDot "c1.txt").1 = "c1" ∧
    should_process_file (.C1Diagram "proj-a") "c1.txt" = false := by decide

/-- Claim C2, amended: under the strict policy a file is admitted for
`C1Diagram`/`C2Diagram`/`C3Diagram` exactly when its filename is the
literal `c1.mdx`/`c2.mdx`/`c3.mdx` — that is, stem match and the fixed
`.mdx` extension, not stem match alone. -/
theorem c2_amended_strict_requires_exact_mdx_filename (p f : String) :
    (should_process_file (.C1Diagram p) f = true ↔ f = "c1.mdx") ∧
    (should_process_file (.C2Diagram p) f = true ↔ f = "c2.mdx") ∧
    (should_process_file (.C3Diagram p) f = true ↔ f = "c3.mdx") := by
  refine ⟨?_, ?_, ?_⟩ <;> simp [should_process_file]

/-- Claim C5, counterexample: for the ADR file `readme.mdx`, whose stem
has no hyphen, the categories are `["adr", "ADR-readme"]`, not the
`["adr", "ADR-unknown"]` the claim requires. -/
theorem c5_counterexample_no_hyphen_stem_not_unknown :
    classify_structural (.AdrDocument "proj-a")
      ["content", "docs", "architecture", "proj-a", "adr", "readme.mdx"]
      "readme.mdx" =
      .entry "docs://architecture/proj-a/adr/readme.mdx" "architecture" ""
        ["adr", "ADR-readme"] "proj-a" ∧
    (["adr", "ADR-readme"] : List String) ≠ ["adr", "ADR-unknown"] := by decide

/-- `splitOnCharAux` never returns the empty list. -/
theorem splitOnCharAux_ne_nil (sep : Char) (cs acc : List Char) :
    splitOnCharAux sep cs acc ≠ [] := by
  induction cs generalizing acc with
  | nil => simp [splitOnCharAux]
  | cons c rest ih =>
    rw [splitOnCharAux]
    split
    · simp
    · exact ih _

/-- Claim C5, amended: for the ADR shape the categories are
`["adr", "ADR-" ++ n]` where `n` is the token before the first hyphen of
the filename with any trailing `.mdx` repeatedly removed; for a
hyphen-free filename `n` is its stem.  The `"unknown"` fallback is dead
code: `split('-')` never yields an empty sequence. -/
theorem c5_amended_adr_number_is_first_hyphen_token (dt : DocumentType)
    (proj fn other : String) (sep : Char) (s : String) :
    classify_structural dt ["content", "docs", "architecture", proj, "adr", fn] other =
      .entry ("docs://architecture/" ++ proj ++ "/adr/" ++ fn) "architecture" ""
        ["adr", "ADR-" ++ adr_number_token fn] proj ∧
    splitOnChar sep s ≠ [] := by
  exact ⟨rfl, splitOnCharAux_ne_nil sep s.data []⟩

/-- Claim C3, counterexample: the five-segment path
`content/docs/backend/php/api.mdx` (fewer segments than the six-segment
generic shape) is not silently skipped — `process_file` indexes it
through the generic arm, with the filename itself serving as category. -/
theorem c3_counterexample_five_segments_indexed :
    process_file .Agreements "content/docs/backend/php/api.mdx" "api.mdx" 7 [] =
      Except.ok [("docs://agreements/backend/php/api.mdx/api.mdx",
        { uri := "docs://agreements/backend/php/api.mdx/api.mdx",
          file_path := "content/docs/backend/php/api.mdx",
          area := "backend", lang := "php",
          category := ["agreements", "api.mdx"], project := "",
          mime_type := "text/markdown", size := 7,
          description := "Agreement document: agreements, api.mdx - backend (php)" })] ∧
    process_file .Agreements "content/docs/backend/php/api.mdx" "api.mdx" 7 [] ≠
      Except.ok ([] : Index) := by decide

/-- Claim C3, amended: only `content/docs` paths with exactly three or
four segments are silently skipped; a five-segment path already matches
the generic `content/docs/{area}/{lang}/{category}/…` arm (the trailing
`..` pattern also matches zero further segments), so it is classified
with the file's own name doubling as its category segment. -/
theorem c3_amended_skip_only_three_or_four_segments (dt : DocumentType)
    (a b c fn : String) :
    classify_structural dt ["content", "docs", a] fn = .skipped ∧
    classify_structural dt ["content", "docs", a, b] fn = .skipped ∧
    classify_structural dt ["content", "docs", a, b, c] fn =
      .entry (uriPrefixOf dt ++ a ++ "/" ++ b ++ "/" ++ c ++ "/" ++ fn) a b
        (if dt = .Agreements then ["agreements", c] else [c]) "" := by
  refine ⟨?_, ?_, ?_⟩ <;>
    simp [classify_structural, classify_architecture_arms, classify_openapi_arms,
      classify_generic_or_skip]

/-- Claim C6 (confirmed): `matches_filter` with an absent filter accepts
everything; with a present filter it accepts exactly the values equal to
some pipe-separated token after trimming; the category filter accepts
exactly the documents one of whose category tags equals some trimmed
token. -/
theorem c6_filter_or_semantics (v f : String) (cats : List String) :
    matches_filter v none = true ∧
    matches_category_filter cats none = true ∧
    (matches_filter v (some f) = true ↔
      ∃ t ∈ splitOnChar '|' f, trimAscii t = v) ∧
    (matches_category_filter cats (some f) = true ↔
      ∃ c ∈ cats, ∃ t ∈ splitOnChar '|' f, trimAscii t = c) := by
  refine ⟨rfl, rfl, ?_, ?_⟩
  · simp [matches_filter, List.any_eq_true]
  · simp [matches_category_filter, List.any_eq_true]

/-- The error code of `get_docs_list` depends only on the effective page
and limit: `invalid_page` for page 0, `invalid_limit` for a limit of 0 or
above 200, otherwise none (success or panic). -/
theorem get_docs_list_error_characterization (docs : List ResourceInfo)
    (args : GetDocsListArgs) :
    tool_error_code (get_docs_list docs args) =
      (if args.page.getD 1 = 0 then some "invalid_page"
       else if args.limit.getD 50 = 0 ∨ 200 < args.limit.getD 50 then some "invalid_limit"
       else none) := by
  simp only [get_docs_list]
  split_ifs <;> simp [tool_error_code]

/-- Claim C7 (confirmed): `get_docs_list` rejects with an
invalid-parameters error exactly when the effective page is < 1 or the
effective limit is outside [1, 200] (defaults 1 and 50); the rejection
happens before filtering — the error code is the same whatever the
document list — and no other input is rejected at validation. -/
theorem c7_invalid_query_parameters (docs docs2 : List ResourceInfo)
    (args : GetDocsListArgs) :
    tool_error_code (get_docs_list docs args) =
      tool_error_code (get_docs_list docs2 args) ∧
    ((tool_error_code (get_docs_list docs args)).isSome = true ↔
      (args.page.getD 1 < 1 ∨ args.limit.getD 50 < 1 ∨ 200 < args.limit.getD 50)) := by
  rw [get_docs_list_error_characterization, get_docs_list_error_characterization]
  refine ⟨rfl, ?_⟩
  split_ifs <;> simp <;> omega

/-- `==` on strings is symmetric. -/
theorem beq_swap (a b : String) : (a == b) = (b == a) := by
  by_cases h : a = b
  · subst h; rfl
  · rw [beq_eq_false_iff_ne.mpr h, beq_eq_false_iff_ne.mpr (Ne.symm h)]

/-- Claim C9 (confirmed, implicit): a present-but-empty filter string is
not a wildcard — `Some("")` matches only the empty value (or an
empty-string category tag), while the absent filter `None` matches every
document. -/
theorem c9_empty_filter_is_not_wildcard (v : String) (cats : List String)
    (docs : List ResourceInfo) :
    (matches_filter v (some "") = true ↔ v = "") ∧
    (matches_category_filter cats (some "") = true ↔ "" ∈ cats) ∧
    (filter_documents docs
        { area := some "", lang := none, category := none, page := none, limit := none } =
      docs.filter (fun i => i.area == "")) ∧
    (filter_documents docs
        { area := none, lang := some "", category := none, page := none, limit := none } =
      docs.filter (fun i => i.lang == "")) ∧
    (filter_documents docs
        { area := none, lang := none, category := some "", page := none, limit := none } =
      docs.filter (fun i => i.category.contains "")) ∧
    (filter_documents docs
        { area := none, lang := none, category := none, page := none, limit := none } =
      docs) := by
  have hsplit : splitOnChar '|' "" = [""] := by decide
  have htrim : trimAscii "" = "" := by decide
  refine ⟨?_, ?_, ?_, ?_, ?_, ?_⟩
  · simp [matches_filter, hsplit, htrim]
    exact eq_comm
  · simp [matches_category_filter, hsplit, htrim, List.any_eq_true]
  · refine List.filter_congr (fun i _ => ?_)
    simp [matches_filter, matches_category_filter, hsplit, htrim]
    exact eq_comm
  · refine List.filter_congr (fun i _ => ?_)
    simp [matches_filter, matches_category_filter, hsplit, htrim]
    exact eq_comm
  · refine List.filter_congr (fun i _ => ?_)
    simp [matches_filter, matches_category_filter, hsplit, htrim]
    rw [Bool.eq_iff_iff]
    simp only [List.any_eq_true, beq_iff_eq, decide_eq_true_eq]
    constructor
    · rintro ⟨c, hc, h⟩
      subst h
      exact hc
    · intro h
      exact ⟨"", h, rfl⟩
  · simp [filter_documents, matches_filter, matches_category_filter]

/-- Claim C8 (confirmed): `get_all_adr_documents` returns exactly the
entries having a category beginning with `ADR-`, in ascending order of
the parsed numeric suffix of the first such tag (Rust `u32` parsing: a
non-numeric, missing, or overflowing suffix parses as 0), and
`total_adr_documents` is the length of the returned list. -/
theorem c8_adr_view_filters_and_sorts (docs : List ResourceInfo)
    (h : docs.length < 4294967296) :
    (get_all_adr_documents docs).adr_documents.Perm (docs.filter has_adr_category) ∧
    List.Sorted adrLe (get_all_adr_documents docs).adr_documents ∧
    (get_all_adr_documents docs).total_adr_documents =
      (get_all_adr_documents docs).adr_documents.length := by
  refine ⟨List.perm_insertionSort adrLe _, List.sorted_insertionSort adrLe _, ?_⟩
  show (List.insertionSort adrLe (docs.filter has_adr_category)).length % 4294967296 = _
  have hlen : (List.insertionSort adrLe (docs.filter has_adr_category)).length =
      (docs.filter has_adr_category).length :=
    (List.perm_insertionSort adrLe (docs.filter has_adr_category)).length_eq
  have hle : (docs.filter has_adr_category).length ≤ docs.length :=
    List.length_filter_le _ _
  rw [Nat.mod_eq_of_lt (by omega)]
  rfl

/-- Witness for C8 at a concrete two-document index (ADR-2 before ADR-1). -/
theorem c8_adr_view_filters_and_sorts_witness :
    ([{ uri := "u2", file_path := "p2", area := "architecture", lang := "",
        category := ["adr", "ADR-2"], project := "proj-a",
        mime_type := "text/markdown", size := 1, description := "d2" },
      { uri := "u1", file_path := "p1", area := "architecture", lang := "",
        category := ["adr", "ADR-1"], project := "proj-a",
        mime_type := "text/markdown", size := 1, description := "d1" }] :
      List ResourceInfo).length < 4294967296 ∧
    ((get_all_adr_documents
        [{ uri := "u2", file_path := "p2", area := "architecture", lang := "",
           category := ["adr", "ADR-2"], project := "proj-a",
           mime_type := "text/markdown", size := 1, description := "d2" },
         { uri := "u1", file_path := "p1", area := "architecture", lang := "",
           category := ["adr", "ADR-1"], project := "proj-a",
           mime_type := "text/markdown", size := 1, description := "d1" }]).adr_documents.Perm
      (([{ uri := "u2", file_path := "p2", area := "architecture", lang := "",
           category := ["adr", "ADR-2"], project := "proj-a",
           mime_type := "text/markdown", size := 1, description := "d2" },
         { uri := "u1", file_path := "p1", area := "architecture", lang := "",
           category := ["adr", "ADR-1"], project := "proj-a",
           mime_type := "text/markdown", size := 1, description := "d1" }] :
        List ResourceInfo).filter has_adr_category) ∧
     List.Sorted adrLe
       (get_all_adr_documents
         [{ uri := "u2", file_path := "p2", area := "architecture", lang := "",
            category := ["adr", "ADR-2"], project := "proj-a",
            mime_type := "text/markdown", size := 1, description := "d2" },
          { uri := "u1", file_path := "p1", area := "architecture", lang := "",
            category := ["adr", "ADR-1"], project := "proj-a",
            mime_type := "text/markdown", size := 1, description := "d1" }]).adr_documents ∧
     (get_all_adr_documents
        [{ uri := "u2", file_path := "p2", area := "architecture", lang := "",
           category := ["adr", "ADR-2"], project := "proj-a",
           mime_type := "text/markdown", size := 1, description := "d2" },
         { uri := "u1", file_path := "p1", area := "architecture", lang := "",
           category := ["adr", "ADR-1"], project := "proj-a",
           mime_type := "text/markdown", size := 1, description := "d1" }]).total_adr_documents =
       (get_all_adr_documents
         [{ uri := "u2", file_path := "p2", area := "architecture", lang := "",
            category := ["adr", "ADR-2"], project := "proj-a",
            mime_type := "text/markdown", size := 1, description := "d2" },
          { uri := "u1", file_path := "p1", area := "architecture", lang := "",
            category := ["adr", "ADR-1"], project := "proj-a",
            mime_type := "text/markdown", size := 1, description := "d1" }]).adr_documents.length) :=
  ⟨by decide, c8_adr_view_filters_and_sorts _ (by decide)⟩

/-- Every URI produced by the architecture arms starts with `docs://`. -/
theorem classify_architecture_arms_uri (dt : DocumentType) (rest : List String)
    (u a l : String) (cs : List String) (p : String)
    (h : classify_architecture_arms dt rest = some (.entry u a l cs p)) :
    startsWithStr u "docs://" = true := by
  unfold classify_architecture_arms at h
  split at h <;> simp at h <;>
    (obtain ⟨hu, h2⟩ := h
     subst hu
     repeat apply startsWith_extend
     decide)

/-- Every URI produced by the content openapi arms starts with `docs://`. -/
theorem classify_openapi_arms_uri (rest : List String)
    (u a l : String) (cs : List String) (p : String)
    (h : classify_openapi_arms rest = some (.entry u a l cs p)) :
    startsWithStr u "docs://" = true := by
  unfold classify_openapi_arms at h
  split at h <;> simp at h <;>
    (obtain ⟨hu, h2⟩ := h
     subst hu
     repeat apply startsWith_extend
     decide)

/-- Every URI produced by the bare openapi arms starts with `docs://`. -/
theorem classify_openapi_bare_arms_uri (path_parts : List String)
    (u a l : String) (cs : List String) (p : String)
    (h : classify_openapi_bare_arms path_parts = some (.entry u a l cs p)) :
    startsWithStr u "docs://" = true := by
  unfold classify_openapi_bare_arms at h
  split at h <;> simp at h <;>
    (obtain ⟨hu, h2⟩ := h
     subst hu
     repeat apply startsWith_extend
     decide)

/-- Every URI produced by the generic arm starts with `docs://`. -/
theorem classify_generic_or_skip_uri (dt : DocumentType) (rest : List String)
    (filename u a l : String) (cs : List String) (p : String)
    (h : classify_generic_or_skip dt rest filename = .entry u a l cs p) :
    startsWithStr u "docs://" = true := by
  unfold classify_generic_or_skip at h
  split at h <;> simp at h
  obtain ⟨hu, h2⟩ := h
  subst hu
  repeat apply startsWith_extend
  exact uriPrefixOf_startsWith dt

/-- Claim C10 (confirmed, implicit): every key either classification
strategy can insert — the URI of any structural-match entry and the URI
built by the universal strategy, for every document type — starts with
`docs://`; consequently the `docs://` precheck of `get_resource_content`
never rejects a URI that is present in the index. -/
theorem c10_index_keys_carry_docs_scheme :
    (∀ (dt : DocumentType) (parts : List String) (fn u a l : String)
        (cs : List String) (p : String),
        classify_structural dt parts fn = .entry u a l cs p →
        startsWithStr u "docs://" = true) ∧
    (∀ (dt : DocumentType) (root sub : String),
        startsWithStr (universal_uri dt root sub) "docs://" = true) ∧
    (∀ (resources : Index) (path : String),
        (∀ kv ∈ resources, startsWithStr kv.1 "docs://" = true) →
        (lookupIndex resources path).isSome = true →
        get_resource_content resources path ≠ .invalidPath) := by
  refine ⟨?_, ?_, ?_⟩
  · intro dt parts fn u a l cs p h
    unfold classify_structural at h
    split at h
    · rename_i rest
      rcases h1 : classify_architecture_arms dt rest with _ | r1
      · rcases h2 : classify_openapi_arms rest with _ | r2
        · rw [h1, h2] at h
          exact classify_generic_or_skip_uri dt rest fn u a l cs p h
        · rw [h1, h2] at h
          subst h
          exact classify_openapi_arms_uri rest u a l cs p h2
      · rw [h1] at h
        subst h
        exact classify_architecture_arms_uri dt rest u a l cs p h1
    · rcases h1 : classify_openapi_bare_arms parts with _ | r1
      · rw [h1] at h
        simp at h
      · rw [h1] at h
        subst h
        exact classify_openapi_bare_arms_uri parts u a l cs p h1
  · intro dt root sub
    cases dt <;>
      simp only [universal_uri] <;>
      (apply startsWith_extend; exact uriPrefixOf_startsWith _)
  · intro resources path hall hsome
    obtain ⟨v, hv⟩ := lookupIndex_isSome_mem hsome
    have hp := hall (path, v) hv
    unfold get_resource_content
    rw [hp]
    simp only [Bool.not_true, Bool.false_eq_true, if_false]
    split <;> simp

/-- Witness for C10 at a concrete classification, universal URI, and
one-entry index. -/
theorem c10_index_keys_carry_docs_scheme_witness :
    startsWithStr "docs://architecture/proj-a/adr/001-x.mdx" "docs://" = true ∧
    startsWithStr (universal_uri (.GuideDoc "eva4") "eva4" "svc/eva-repl.rst")
      "docs://" = true ∧
    get_resource_content
      [("docs://guides/eva4/svc/eva-repl.rst",
        { uri := "docs://guides/eva4/svc/eva-repl.rst",
          file_path := "eva4/svc/eva-repl.rst", area := "guides", lang := "",
          category := ["guides"], project := "eva4", mime_type := "text/x-rst",
          size := 9, description := "Guide: eva4 - eva-repl" })]
      "docs://guides/eva4/svc/eva-repl.rst" ≠ .invalidPath :=
  ⟨c10_index_keys_carry_docs_scheme.1 (.AdrDocument "proj-a")
      ["content", "docs", "architecture", "proj-a", "adr", "001-x.mdx"]
      "001-x.mdx" "docs://architecture/proj-a/adr/001-x.mdx" "architecture" ""
      ["adr", "ADR-001"] "proj-a" (by decide),
   c10_index_keys_carry_docs_scheme.2.1 (.GuideDoc "eva4") "eva4" "svc/eva-repl.rst",
   c10_index_keys_carry_docs_scheme.2.2
     [("docs://guides/eva4/svc/eva-repl.rst",
       { uri := "docs://guides/eva4/svc/eva-repl.rst",
         file_path := "eva4/svc/eva-repl.rst", area := "guides", lang := "",
         category := ["guides"], project := "eva4", mime_type := "text/x-rst",
         size := 9, description := "Guide: eva4 - eva-repl" })]
     "docs://guides/eva4/svc/eva-repl.rst" (by decide) (by decide)⟩

/-- Unfolding: the typed walk of an empty directory. -/
theorem scan_dir_nil (dt : DocumentType) (d : String) (r : Index) :
    scan_directory_recursive dt d r [] = (r, none) := by
  rw [scan_directory_recursive]

/-- Unfolding: a successfully processed file continues the walk with the
updated index. -/
theorem scan_dir_cons_file_ok {dt : DocumentType} {d name : String} {fsize : Nat}
    {r r2 : Index} (rest : List FsEntry)
    (h : process_file dt (d ++ "/" ++ name) name fsize r = .ok r2) :
    scan_directory_recursive dt d r (.file name fsize :: rest) =
      scan_directory_recursive dt d r2 rest := by
  rw [scan_directory_recursive, h]

/-- Unfolding: a file whose processing fails stops the walk at once; the
remaining entries are never visited. -/
theorem scan_dir_cons_file_error {dt : DocumentType} {d name : String} {fsize : Nat}
    {r : Index} {e : String} (rest : List FsEntry)
    (h : process_file dt (d ++ "/" ++ name) name fsize r = .error e) :
    scan_directory_recursive dt d r (.file name fsize :: rest) = (r, some e) := by
  rw [scan_directory_recursive, h]

/-- Unfolding: a subdirectory the type descends into, whose walk
succeeds, continues with the updated index. -/
theorem scan_dir_cons_dir_ok {dt : DocumentType} {d name : String}
    {entries : List FsEntry} {r r2 : Index} (rest : List FsEntry)
    (h : typed_descends dt name = true)
    (h2 : scan_directory_recursive dt (d ++ "/" ++ name) r entries = (r2, none)) :
    scan_directory_recursive dt d r (.dir name entries :: rest) =
      scan_directory_recursive dt d r2 rest := by
  rw [scan_directory_recursive, if_pos h, h2]

/-- Unfolding: a subdirectory whose walk fails stops the walk at once. -/
theorem scan_dir_cons_dir_error {dt : DocumentType} {d name : String}
    {entries : List FsEntry} {r r2 : Index} {e : String} (rest : List FsEntry)
    (h : typed_descends dt name = true)
    (h2 : scan_directory_recursive dt (d ++ "/" ++ name) r entries = (r2, some e)) :
    scan_directory_recursive dt d r (.dir name entries :: rest) = (r2, some e) := by
  rw [scan_directory_recursive, if_pos h, h2]

/-- Unfolding: a pruned subdirectory is skipped. -/
theorem scan_dir_cons_dir_skip {dt : DocumentType} {d name : String}
    {entries : List FsEntry} {r : Index} (rest : List FsEntry)
    (h : typed_descends dt name = false) :
    scan_directory_recursive dt d r (.dir name entries :: rest) =
      scan_directory_recursive dt d r rest := by
  rw [scan_directory_recursive, if_neg (by simp [h])]

/-- Unfolding: `scan_documents` for an `AdrDocument` group with a single
area target runs `scan_area` on it, dropping (logging) the error. -/
theorem scan_documents_adr_single_area (p area : String) (t : ScanTarget) (r : Index) :
    scan_documents (.AdrDocument p) [(area, t)] r =
      (scan_area (.AdrDocument p) area t r).1 := rfl

/-- Unfolding: `scan_area` on a directory target runs the typed walk. -/
theorem scan_area_directory (dt : DocumentType) (a : String) (es : List FsEntry)
    (r : Index) : scan_area dt a (.directory es) r =
      scan_directory_recursive dt a r es := rfl

/-- Claim C4, counterexample: one invalid-structure file aborts the rest
of its area walk.  Scanning area `content` whose directory holds the
unclassifiable `bad.mdx` first and then a perfectly classifiable ADR file
deeper down yields an empty index — the good file is never inserted —
whereas with the bad file enumerated last the good file is indexed.  The
claim says every other qualifying file in the same area target is still
classified and inserted, whatever the enumeration order. -/
theorem c4_counterexample_error_aborts_area_walk :
    scan_documents (.AdrDocument "proj-a")
      [("content", .directory [.file "bad.mdx" 1, c4GoodTree])] [] = [] ∧
    lookupIndex
      (scan_documents (.AdrDocument "proj-a")
        [("content", .directory [c4GoodTree, .file "bad.mdx" 1])] [])
      c4GoodKey ≠ none := by
  have hbad : ∀ r : Index, process_file (.AdrDocument "proj-a")
      ("content" ++ "/" ++ "bad.mdx") "bad.mdx" 1 r =
      .error "Invalid path structure: content/bad.mdx" := by
    intro r
    unfold process_file
    rw [show should_process_file (.AdrDocument "proj-a") "bad.mdx" = true from by decide]
    rw [show splitOnChar '/' ("content" ++ "/" ++ "bad.mdx") = ["content", "bad.mdx"]
      from by decide]
    rw [show classify_structural (.AdrDocument "proj-a") ["content", "bad.mdx"] "bad.mdx" =
      .invalid from by decide]
    simp only [Bool.not_true, Bool.false_eq_true, if_false]
    decide
  have h5 : scan_directory_recursive (.AdrDocument "proj-a")
      ("content" ++ "/" ++ "docs" ++ "/" ++ "architecture" ++ "/" ++ "proj-a" ++ "/" ++ "adr")
      [] [.file "001-x.mdx" 3] = ([(c4GoodKey, c4GoodInfo)], none) := by
    rw [scan_dir_cons_file_ok []
      (show process_file (.AdrDocument "proj-a")
        ("content" ++ "/" ++ "docs" ++ "/" ++ "architecture" ++ "/" ++ "proj-a" ++ "/" ++
          "adr" ++ "/" ++ "001-x.mdx") "001-x.mdx" 3 [] =
        Except.ok [(c4GoodKey, c4GoodInfo)] from by decide)]
    exact scan_dir_nil _ _ _
  have h4 : scan_directory_recursive (.AdrDocument "proj-a")
      ("content" ++ "/" ++ "docs" ++ "/" ++ "architecture" ++ "/" ++ "proj-a")
      [] [.dir "adr" [.file "001-x.mdx" 3]] = ([(c4GoodKey, c4GoodInfo)], none) := by
    rw [scan_dir_cons_dir_ok [] (by decide) h5]
    exact scan_dir_nil _ _ _
  have h3 : scan_directory_recursive (.AdrDocument "proj-a")
      ("content" ++ "/" ++ "docs" ++ "/" ++ "architecture")
      [] [.dir "proj-a" [.dir "adr" [.file "001-x.mdx" 3]]] =
      ([(c4GoodKey, c4GoodInfo)], none) := by
    rw [scan_dir_cons_dir_ok [] (by decide) h4]
    exact scan_dir_nil _ _ _
  have h2 : scan_directory_recursive (.AdrDocument "proj-a")
      ("content" ++ "/" ++ "docs")
      [] [.dir "architecture" [.dir "proj-a" [.dir "adr" [.file "001-x.mdx" 3]]]] =
      ([(c4GoodKey, c4GoodInfo)], none) := by
    rw [scan_dir_cons_dir_ok [] (by decide) h3]
    exact scan_dir_nil _ _ _
  constructor
  · rw [scan_documents_adr_single_area, scan_area_directory]
    rw [scan_dir_cons_file_error [c4GoodTree] (hbad [])]
  · rw [scan_documents_adr_single_area, scan_area_directory]
    have hscan : scan_directory_recursive (.AdrDocument "proj-a") "content" []
        [c4GoodTree, .file "bad.mdx" 1] =
        ([(c4GoodKey, c4GoodInfo)], some "Invalid path structure: content/bad.mdx") := by
      rw [show ([c4GoodTree, FsEntry.file "bad.mdx" 1] : List FsEntry) =
        FsEntry.dir "docs"
          [.dir "architecture" [.dir "proj-a" [.dir "adr" [.file "001-x.mdx" 3]]]] ::
        [FsEntry.file "bad.mdx" 1] from rfl]
      rw [scan_dir_cons_dir_ok [FsEntry.file "bad.mdx" 1] (by decide) h2]
      exact scan_dir_cons_file_error [] (hbad _)
    rw [hscan]
    decide

/-- Claim C4, amended: an invalid-structure error is scoped to its area
target, not to the single file.  Within one area walk, once a prefix of
the enumeration ends in an error, the remaining entries are never
processed (the walk of the longer list equals the walk of the erring
prefix); across area targets the group continues — scanning a group's
target list decomposes into scanning each part in turn, so one area's
(caught and logged) error leaves the other areas' scans untouched. -/
theorem c4_amended_error_scoped_to_area_target :
    (∀ (dt : DocumentType) (d : String) (r : Index) (es1 es2 : List FsEntry),
        (scan_directory_recursive dt d r es1).2.isSome = true →
        scan_directory_recursive dt d r (es1 ++ es2) =
          scan_directory_recursive dt d r es1) ∧
    (∀ (dt : DocumentType) (as1 as2 : List (String × ScanTarget)) (r : Index),
        scan_documents dt (as1 ++ as2) r =
          scan_documents dt as2 (scan_documents dt as1 r)) := by
  constructor
  · intro dt d r es1 es2
    induction es1 generalizing r with
    | nil =>
      intro h
      rw [scan_dir_nil] at h
      simp at h
    | cons e es ih =>
      intro h
      cases e with
      | file name fsize =>
        rcases hpf : process_file dt (d ++ "/" ++ name) name fsize r with e2 | r2
        · rw [List.cons_append, scan_dir_cons_file_error (es ++ es2) hpf,
            scan_dir_cons_file_error es hpf]
        · rw [scan_dir_cons_file_ok es hpf] at h
          rw [List.cons_append, scan_dir_cons_file_ok (es ++ es2) hpf,
            scan_dir_cons_file_ok es hpf]
          exact ih r2 h
      | dir name entries =>
        cases hd : typed_descends dt name with
        | false =>
          rw [scan_dir_cons_dir_skip es hd] at h
          rw [List.cons_append, scan_dir_cons_dir_skip (es ++ es2) hd,
            scan_dir_cons_dir_skip es hd]
          exact ih r h
        | true =>
          rcases hin : scan_directory_recursive dt (d ++ "/" ++ name) r entries with ⟨r2, oe⟩
          cases oe with
          | none =>
            rw [scan_dir_cons_dir_ok es hd hin] at h
            rw [List.cons_append, scan_dir_cons_dir_ok (es ++ es2) hd hin,
              scan_dir_cons_dir_ok es hd hin]
            exact ih r2 h
          | some e2 =>
            rw [List.cons_append, scan_dir_cons_dir_error (es ++ es2) hd hin,
              scan_dir_cons_dir_error es hd hin]
  · intro dt as1 as2 r
    cases dt <;> simp only [scan_documents, List.foldl_append]

/-- Witness for the amended C4 at a concrete erring prefix: the walk of
`[a.mdx]` under area `x` errors, and appending `[b.mdx]` changes
nothing — the second file is never processed. -/
theorem c4_amended_error_scoped_to_area_target_witness :
    (scan_directory_recursive (.AdrDocument "proj-a") "x" []
        [FsEntry.file "a.mdx" 1]).2.isSome = true ∧
    scan_directory_recursive (.AdrDocument "proj-a") "x" []
        ([FsEntry.file "a.mdx" 1] ++ [FsEntry.file "b.mdx" 1]) =
      scan_directory_recursive (.AdrDocument "proj-a") "x" []
        [FsEntry.file "a.mdx" 1] := by
  have hpf : process_file (.AdrDocument "proj-a") ("x" ++ "/" ++ "a.mdx") "a.mdx" 1
      ([] : Index) = .error "Invalid path structure: x/a.mdx" := by decide
  have hyp : (scan_directory_recursive (.AdrDocument "proj-a") "x" []
      [FsEntry.file "a.mdx" 1]).2.isSome = true := by
    rw [scan_dir_cons_file_error [] hpf]
    rfl
  exact ⟨hyp, c4_amended_error_scoped_to_area_target.1 _ _ _ _ _ hyp⟩
